import Mathlib

/-!
Shallow embedding of the Mega Drive VDP emulator core (`src/vdp/`) and
verification of its specification claims.

Machine integers are modelled as `Nat` (unsigned) or `Int` (signed), with
wrap-around written out explicitly (`% 2^w`) where the Rust code relies on it.
Bit masking with contiguous masks is written with `/` and `%` by powers of two;
non-contiguous masks use `Nat.land` (`&&&`).
-/

set_option maxRecDepth 4096

/-- Reinterpret a `u16` bit pattern as an `i16` (two's complement). -/
def i16ofU16 (n : Nat) : Int :=
  if n % 65536 < 32768 then (n % 65536 : Int) else (n % 65536 : Int) - 65536

/-- Reinterpret an `i16` value as its `u16` bit pattern. -/
def u16ofI16 (z : Int) : Nat :=
  ((z % 65536).toNat) % 65536

/-- Wrapping `i16` arithmetic result: reduce an unbounded `Int` into `i16` range. -/
def wrapI16 (z : Int) : Int :=
  (z + 32768) % 65536 - 32768

/-! ## CRAM (`src/vdp/cram.rs`)

`Cram` stores 64 colour words; `write`/`write_word` mask the stored value with
`0x0EEE` and ignore out-of-range indices, `read` wraps the index modulo 64. -/

structure Cram where
  data : List Nat
  deriving DecidableEq, Repr

def Cram.new : Cram :=
  ⟨List.replicate 64 0⟩

/-- `Cram::write_word`: byte address, converted to a word index by `>> 1`. -/
def Cram.write_word (c : Cram) (addr value : Nat) : Cram :=
  let index := addr / 2
  if index < 64 then ⟨c.data.set index (value &&& 0x0EEE)⟩ else c

/-- `Cram::read_word`. -/
def Cram.read_word (c : Cram) (addr : Nat) : Nat :=
  let index := addr / 2
  if index < 64 then c.data.getD index 0 else 0

/-- `Cram::write`: direct index write, masked with `0x0EEE`, no-op if `index >= 64`. -/
def Cram.write (c : Cram) (index value : Nat) : Cram :=
  if index < 64 then ⟨c.data.set index (value &&& 0x0EEE)⟩ else c

/-- `Cram::read`: index wraps modulo 64. -/
def Cram.read (c : Cram) (index : Nat) : Nat :=
  c.data.getD (index % 64) 0

/-! ## VSRAM (`src/vdp/vsram.rs`)

40 words (80 bytes); out-of-range writes return early; every in-range write
refreshes the cached scroll fields via `update_scroll_from_data`. -/

inductive ScrollMode where
  | Global
  | LineScroll
  | ColumnScroll
  | SplitScreen
  deriving DecidableEq, Repr

structure Vsram where
  data : List Nat
  plane_a_scroll : Int
  plane_b_scroll : Int
  split_line : Nat
  split_scroll_a : Int
  split_scroll_b : Int
  scroll_mode : ScrollMode
  line_scroll_enabled : Bool
  column_scroll_enabled : Bool
  deriving DecidableEq, Repr

def Vsram.new : Vsram where
  data := List.replicate 40 0
  plane_a_scroll := 0
  plane_b_scroll := 0
  split_line := 0
  split_scroll_a := 0
  split_scroll_b := 0
  scroll_mode := ScrollMode.Global
  line_scroll_enabled := false
  column_scroll_enabled := false

/-- `Vsram::update_scroll_from_data` (the `VSRAM_SIZE_WORDS > k` guards are
constant-true in the source and elided). -/
def Vsram.update_scroll_from_data (s : Vsram) : Vsram :=
  { s with
    plane_a_scroll := i16ofU16 (s.data.getD 0 0)
    plane_b_scroll := i16ofU16 (s.data.getD 1 0)
    split_line := s.data.getD 2 0
    split_scroll_a := i16ofU16 (s.data.getD 3 0)
    split_scroll_b := i16ofU16 (s.data.getD 4 0) }

/-- `Vsram::write16`: returns the state unchanged when `addr >= 80`. -/
def Vsram.write16 (s : Vsram) (addr value : Nat) : Vsram :=
  if addr ≥ 80 then s
  else
    Vsram.update_scroll_from_data { s with data := s.data.set (addr / 2) value }

/-- `Vsram::read16`. -/
def Vsram.read16 (s : Vsram) (addr : Nat) : Nat :=
  if addr ≥ 80 then 0 else s.data.getD (addr / 2) 0

/-! ## C2 / C10: CRAM and VSRAM address handling and the colour mask invariant -/

/-- Helper: a value masked with `0x0EEE` has no bits in `0xF111`. -/
theorem land_0EEE_F111 (v : Nat) : (v &&& 0x0EEE) &&& 0xF111 = 0 := by
  rw [Nat.land_assoc]
  have h : (0x0EEE : Nat) &&& 0xF111 = 0 := by decide
  rw [h]
  simp [Nat.land]

/-- Every stored CRAM entry lies within the `0x0EEE` mask. -/
def cramMaskInv (c : Cram) : Prop :=
  ∀ x ∈ c.data, x &&& 0xF111 = 0

instance (c : Cram) : Decidable (cramMaskInv c) := by
  unfold cramMaskInv
  infer_instance

/-- C2 counterexample: writing CRAM index 70 is NOT the same as writing index
6 (= 70 mod 64): the former is a no-op, the latter stores the value.  Likewise
a VSRAM write at byte offset 90 is a no-op, unlike a write at offset 10. -/
theorem cram_vsram_wrap_counterexample :
    Cram.write Cram.new 70 0x0EEE ≠ Cram.write Cram.new (70 % 64) 0x0EEE ∧
    Vsram.write16 Vsram.new 90 0x1234 ≠ Vsram.write16 Vsram.new (90 % 80) 0x1234 := by
  constructor
  · decide
  · decide

/-- C2 (amended): out-of-range CRAM/VSRAM writes are ignored (no-ops), not
wrapped; reads are total, with `Cram::read` wrapping its index modulo 64, so no
storage access ever faults. -/
theorem cram_vsram_out_of_range_writes_ignored :
    (∀ (c : Cram) (idx v : Nat), 64 ≤ idx → Cram.write c idx v = c) ∧
    (∀ (s : Vsram) (a v : Nat), 80 ≤ a → Vsram.write16 s a v = s) ∧
    (∀ (c : Cram) (i : Nat), Cram.read c i = Cram.read c (i % 64)) := by
  refine ⟨?_, ?_, ?_⟩
  · intro c idx v h
    unfold Cram.write
    simp [Nat.not_lt.mpr h]
  · intro s a v h
    unfold Vsram.write16
    simp [Nat.le_of_lt, h]
  · intro c i
    unfold Cram.read
    have h : i % 64 % 64 = i % 64 := by omega
    rw [h]

/-- Witness for the amended C2 theorem at concrete inputs. -/
theorem cram_vsram_out_of_range_writes_ignored_witness :
    Cram.write Cram.new 70 0x0EEE = Cram.new ∧
    Vsram.write16 Vsram.new 90 0x1234 = Vsram.new ∧
    Cram.read Cram.new 70 = Cram.read Cram.new 6 := by
  refine ⟨?_, ?_, ?_⟩
  · exact cram_vsram_out_of_range_writes_ignored.1 Cram.new 70 0x0EEE (by decide)
  · exact cram_vsram_out_of_range_writes_ignored.2.1 Vsram.new 90 0x1234 (by decide)
  · have h := cram_vsram_out_of_range_writes_ignored.2.2 Cram.new 70
    simpa using h

/-- C10: all CRAM write paths (direct index write, word-addressed write, and
the DMA memory-to-CRAM transfer, which stores `data & 0x0EEE`) preserve the
invariant that every stored entry lies within the `0x0EEE` mask, so
`Cram::read` always returns `v` with `v &&& 0xF111 = 0`. -/
theorem cram_mask_invariant :
    cramMaskInv Cram.new ∧
    (∀ (c : Cram) (i v : Nat), cramMaskInv c → cramMaskInv (Cram.write c i v)) ∧
    (∀ (c : Cram) (a v : Nat), cramMaskInv c → cramMaskInv (Cram.write_word c a v)) ∧
    (∀ (c : Cram) (i v : Nat), cramMaskInv c →
      cramMaskInv (Cram.write c i (v &&& 0x0EEE))) ∧
    (∀ (c : Cram) (i : Nat), cramMaskInv c → Cram.read c i &&& 0xF111 = 0) := by
  have hset : ∀ (l : List Nat) (i v : Nat), (∀ x ∈ l, x &&& 0xF111 = 0) →
      ∀ x ∈ l.set i (v &&& 0x0EEE), x &&& 0xF111 = 0 := by
    intro l i v hl x hx
    rcases List.mem_or_eq_of_mem_set hx with h | h
    · exact hl x h
    · rw [h]; exact land_0EEE_F111 v
  refine ⟨?_, ?_, ?_, ?_, ?_⟩
  · intro x hx
    rw [List.eq_of_mem_replicate hx]
    decide
  · intro c i v hc
    unfold Cram.write
    by_cases h : i < 64
    · simpa [h] using hset c.data i v hc
    · simpa [h] using hc
  · intro c a v hc
    unfold Cram.write_word
    by_cases h : a / 2 < 64
    · simpa [h] using hset c.data (a / 2) v hc
    · simpa [h] using hc
  · intro c i v hc
    unfold Cram.write
    by_cases h : i < 64
    · intro x hx
      simp only [h, if_true] at hx
      rcases List.mem_or_eq_of_mem_set hx with h2 | h2
      · exact hc x h2
      · rw [h2]
        exact land_0EEE_F111 (v &&& 0x0EEE)
    · simpa [h] using hc
  · intro c i hc
    unfold Cram.read
    rw [List.getD_eq_getElem?_getD]
    cases h : c.data[i % 64]? with
    | none => simp [Nat.land]
    | some x =>
      obtain ⟨hlt, hx⟩ := List.getElem?_eq_some.1 h
      have hmem : x ∈ c.data := hx ▸ List.getElem_mem hlt
      simpa using hc x hmem

/-- Witness for the C10 invariant theorem at concrete inputs. -/
theorem cram_mask_invariant_witness :
    cramMaskInv (Cram.write Cram.new 5 0xFFFF) ∧
    Cram.read (Cram.write Cram.new 5 0xFFFF) 5 &&& 0xF111 = 0 := by
  have h1 : cramMaskInv (Cram.write Cram.new 5 0xFFFF) :=
    cram_mask_invariant.2.1 Cram.new 5 0xFFFF cram_mask_invariant.1
  exact ⟨h1, cram_mask_invariant.2.2.2.2 _ 5 h1⟩

/-! ## Interrupt controller (`src/vdp/interrupts.rs`)

State relevant to the timing constants and the pending-interrupt queue. -/

inductive VdpInterruptType where
  | VBlank
  | HBlank
  | Scanline
  | SpriteOverflow
  | SpriteCollision
  | DmaComplete
  deriving DecidableEq, Repr

structure PendingInterrupt where
  irq_type : VdpInterruptType
  timestamp : Nat
  priority : Nat
  deriving DecidableEq, Repr

structure VdpInterruptController where
  pending : List PendingInterrupt
  cycle_counter : Nat
  is_pal : Bool
  v_blank_start : Nat
  deriving DecidableEq, Repr

def VdpInterruptController.new : VdpInterruptController where
  pending := []
  cycle_counter := 0
  is_pal := false
  v_blank_start := 224

/-- `VdpInterruptController::set_video_mode`. -/
def VdpInterruptController.set_video_mode (c : VdpInterruptController)
    (pal : Bool) : VdpInterruptController :=
  { c with is_pal := pal, v_blank_start := if pal then 240 else 224 }

/-- `VdpInterruptController::total_lines`. -/
def VdpInterruptController.total_lines (c : VdpInterruptController) : Nat :=
  if c.is_pal then 313 else 262

/-- `VdpInterruptController::cycles_per_line`. -/
def VdpInterruptController.cycles_per_line (c : VdpInterruptController) : Nat :=
  if c.is_pal then 454 else 342

/-- The `position`-then-`insert` step of `queue_interrupt`: the new entry is
inserted before the first queued entry whose priority is strictly greater, or
whose priority is equal with a strictly later timestamp. -/
def insertPending (ts p : Nat) (e : PendingInterrupt) :
    List PendingInterrupt → List PendingInterrupt
  | [] => [e]
  | i :: rest =>
    if p < i.priority ∨ (i.priority = p ∧ ts < i.timestamp) then e :: i :: rest
    else i :: insertPending ts p e rest

/-- `VdpInterruptController::queue_interrupt`. -/
def VdpInterruptController.queue_interrupt (c : VdpInterruptController)
    (t : VdpInterruptType) (p : Nat) : VdpInterruptController :=
  { c with
    pending := insertPending c.cycle_counter p
      ⟨t, c.cycle_counter, p⟩ c.pending }

/-- `VdpInterruptController::pop_interrupt`: removes the front (index 0). -/
def VdpInterruptController.pop_interrupt (c : VdpInterruptController) :
    Option PendingInterrupt × VdpInterruptController :=
  match c.pending with
  | [] => (none, c)
  | h :: t => (some h, { c with pending := t })

/-- `VdpInterruptController::has_interrupt`. -/
def VdpInterruptController.has_interrupt (c : VdpInterruptController) : Bool :=
  !c.pending.isEmpty

/-- Queue order: lower numeric priority first (0 = highest), timestamps as
arrival-time tie-break within equal priority. -/
def PendingLE (a b : PendingInterrupt) : Prop :=
  a.priority < b.priority ∨ (a.priority = b.priority ∧ a.timestamp ≤ b.timestamp)

instance (a b : PendingInterrupt) : Decidable (PendingLE a b) := by
  unfold PendingLE
  infer_instance

theorem mem_insertPending {ts p : Nat} {e x : PendingInterrupt}
    {l : List PendingInterrupt} (hx : x ∈ insertPending ts p e l) :
    x = e ∨ x ∈ l := by
  induction l with
  | nil =>
    simp [insertPending] at hx
    exact Or.inl hx
  | cons i rest ih =>
    unfold insertPending at hx
    by_cases h : p < i.priority ∨ (i.priority = p ∧ ts < i.timestamp)
    · simp [h] at hx
      rcases hx with h1 | h1 | h1
      · exact Or.inl h1
      · exact Or.inr (by simp [h1])
      · exact Or.inr (by simp [h1])
    · simp [h] at hx
      rcases hx with h1 | h1
      · exact Or.inr (by simp [h1])
      · rcases ih h1 with h2 | h2
        · exact Or.inl h2
        · exact Or.inr (by simp [h2])

theorem insertPending_pairwise {ts p : Nat} {t : VdpInterruptType}
    {l : List PendingInterrupt} (hl : l.Pairwise PendingLE)
    (hts : ∀ e ∈ l, e.timestamp ≤ ts) :
    (insertPending ts p ⟨t, ts, p⟩ l).Pairwise PendingLE := by
  induction l with
  | nil => simp [insertPending]
  | cons i rest ih =>
    rw [List.pairwise_cons] at hl
    obtain ⟨hi, hrest⟩ := hl
    unfold insertPending
    by_cases h : p < i.priority ∨ (i.priority = p ∧ ts < i.timestamp)
    · have hp : p < i.priority := by
        rcases h with h | h
        · exact h
        · exact absurd h.2 (Nat.not_lt.mpr (hts i (List.mem_cons_self i rest)))
      simp only [h, if_true]
      rw [List.pairwise_cons]
      refine ⟨?_, List.pairwise_cons.mpr ⟨hi, hrest⟩⟩
      intro x hx
      rcases List.mem_cons.mp hx with h1 | h1
      · exact Or.inl (h1 ▸ hp)
      · rcases hi x h1 with h2 | h2
        · exact Or.inl (Nat.lt_trans hp h2)
        · exact Or.inl (h2.1 ▸ hp)
    · simp only [h, if_false]
      rw [List.pairwise_cons]
      refine ⟨?_, ih hrest fun e he => hts e (List.mem_cons_of_mem i he)⟩
      intro x hx
      rcases mem_insertPending hx with h1 | h1
      · push_neg at h
        rcases Nat.lt_or_ge i.priority p with h2 | h2
        · exact Or.inl (by simp [h1, h2])
        · have hep : i.priority = p := Nat.le_antisymm h.1 h2
          exact Or.inr (by simp [h1, hep, hts i (List.mem_cons_self i rest)])
      · exact hi x h1

/-- C4 counterexample: in PAL mode `cycles_per_line` is 454, not 424 as the
claim states. -/
theorem pal_cycles_per_line_counterexample :
    (VdpInterruptController.new.set_video_mode true).cycles_per_line ≠ 424 := by
  decide

/-- C4 (amended): timing constants of the interrupt controller — NTSC 342
cycles/line and 262 lines/frame, PAL 454 cycles/line and 313 lines/frame. -/
theorem interrupt_timing_constants :
    VdpInterruptController.new.cycles_per_line = 342 ∧
    VdpInterruptController.new.total_lines = 262 ∧
    (VdpInterruptController.new.set_video_mode true).cycles_per_line = 454 ∧
    (VdpInterruptController.new.set_video_mode true).total_lines = 313 := by
  decide

/-- C5: `queue_interrupt` preserves the priority-then-arrival order of the
pending queue (given that queued timestamps never exceed the current cycle
counter), and with VBlank, HBlank and SpriteCollision all pending,
`pop_interrupt` returns them in exactly that order. -/
theorem interrupt_queue_priority_order :
    (∀ (c : VdpInterruptController) (t : VdpInterruptType) (p : Nat),
      c.pending.Pairwise PendingLE →
      (∀ e ∈ c.pending, e.timestamp ≤ c.cycle_counter) →
      ((c.queue_interrupt t p).pending.Pairwise PendingLE)) ∧
    (((VdpInterruptController.new.queue_interrupt .SpriteCollision 4
        |>.queue_interrupt .VBlank 0
        |>.queue_interrupt .HBlank 1).pop_interrupt.1.map
          PendingInterrupt.irq_type = some .VBlank) ∧
     ((VdpInterruptController.new.queue_interrupt .SpriteCollision 4
        |>.queue_interrupt .VBlank 0
        |>.queue_interrupt .HBlank 1).pop_interrupt.2.pop_interrupt.1.map
          PendingInterrupt.irq_type = some .HBlank) ∧
     ((VdpInterruptController.new.queue_interrupt .SpriteCollision 4
        |>.queue_interrupt .VBlank 0
        |>.queue_interrupt .HBlank 1
        ).pop_interrupt.2.pop_interrupt.2.pop_interrupt.1.map
          PendingInterrupt.irq_type = some .SpriteCollision)) := by
  constructor
  · intro c t p hp hts
    exact insertPending_pairwise hp hts
  · refine ⟨by decide, by decide, by decide⟩

/-- Witness for the C5 theorem at a concrete controller. -/
theorem interrupt_queue_priority_order_witness :
    ((VdpInterruptController.new.queue_interrupt .VBlank 0).queue_interrupt
      .HBlank 1).pending.Pairwise PendingLE :=
  interrupt_queue_priority_order.1 (VdpInterruptController.new.queue_interrupt
    .VBlank 0) .HBlank 1 (by decide) (by decide)

/-! ## Sprite engine (`src/vdp/sprite.rs`) -/

inductive SpriteSize where
  | Size1x1 | Size1x2 | Size1x3 | Size1x4
  | Size2x1 | Size2x2 | Size2x3 | Size2x4
  | Size3x1 | Size3x2 | Size3x3 | Size3x4
  | Size4x1 | Size4x2 | Size4x3 | Size4x4
  deriving DecidableEq, Repr

/-- `SpriteSize::dimensions`: (width, height) in tiles. -/
def SpriteSize.dimensions : SpriteSize → Nat × Nat
  | .Size1x1 => (1, 1) | .Size1x2 => (1, 2) | .Size1x3 => (1, 3) | .Size1x4 => (1, 4)
  | .Size2x1 => (2, 1) | .Size2x2 => (2, 2) | .Size2x3 => (2, 3) | .Size2x4 => (2, 4)
  | .Size3x1 => (3, 1) | .Size3x2 => (3, 2) | .Size3x3 => (3, 3) | .Size3x4 => (3, 4)
  | .Size4x1 => (4, 1) | .Size4x2 => (4, 2) | .Size4x3 => (4, 3) | .Size4x4 => (4, 4)

/-- `SpriteSize::pixel_dimensions` (tile size 8). -/
def SpriteSize.pixel_dimensions (s : SpriteSize) : Nat × Nat :=
  (s.dimensions.1 * 8, s.dimensions.2 * 8)

/-- `SpriteSize::from_hardware_code`. -/
def SpriteSize.from_hardware_code : Nat → Nat → Option SpriteSize
  | 0, 0 => some .Size1x1 | 0, 1 => some .Size1x2 | 0, 2 => some .Size1x3 | 0, 3 => some .Size1x4
  | 1, 0 => some .Size2x1 | 1, 1 => some .Size2x2 | 1, 2 => some .Size2x3 | 1, 3 => some .Size2x4
  | 2, 0 => some .Size3x1 | 2, 1 => some .Size3x2 | 2, 2 => some .Size3x3 | 2, 3 => some .Size3x4
  | 3, 0 => some .Size4x1 | 3, 1 => some .Size4x2 | 3, 2 => some .Size4x3 | 3, 3 => some .Size4x4
  | _, _ => none

/-- `SpriteSize::to_hardware_code`. -/
def SpriteSize.to_hardware_code : SpriteSize → Nat × Nat
  | .Size1x1 => (0, 0) | .Size1x2 => (0, 1) | .Size1x3 => (0, 2) | .Size1x4 => (0, 3)
  | .Size2x1 => (1, 0) | .Size2x2 => (1, 1) | .Size2x3 => (1, 2) | .Size2x4 => (1, 3)
  | .Size3x1 => (2, 0) | .Size3x2 => (2, 1) | .Size3x3 => (2, 2) | .Size3x4 => (2, 3)
  | .Size4x1 => (3, 0) | .Size4x2 => (3, 1) | .Size4x3 => (3, 2) | .Size4x4 => (3, 3)

structure Sprite where
  y : Int
  x : Int
  size : SpriteSize
  link : Nat
  tile_index : Nat
  palette : Nat
  priority : Bool
  flip_horizontal : Bool
  flip_vertical : Bool
  valid : Bool
  visible : Bool
  high_color_mode : Bool
  deriving DecidableEq, Repr

/-- `Sprite::with_params` (sets `link := 0`, `valid`/`visible := true`). -/
def Sprite.with_params (x y : Int) (size : SpriteSize) (tile_index : Nat)
    (palette : Nat) (priority flip_h flip_v high_color_mode : Bool) : Sprite where
  y := y
  x := x
  size := size
  link := 0
  tile_index := tile_index
  palette := palette
  priority := priority
  flip_horizontal := flip_h
  flip_vertical := flip_v
  valid := true
  visible := true
  high_color_mode := high_color_mode

/-- The 8-byte SAT entry (each field a `u8`). -/
structure SatBytes where
  b0 : Nat
  b1 : Nat
  b2 : Nat
  b3 : Nat
  b4 : Nat
  b5 : Nat
  b6 : Nat
  b7 : Nat
  deriving DecidableEq, Repr

/-- Position encoding shared by Y and X in `Sprite::to_bytes`: add the +128
offset with wrapping `i16` arithmetic, then keep 9 bits, setting the top bits
when the adjusted value is negative (`| 0xFE00` on disjoint bits is `+`). -/
def encodeSatPos (v : Int) : Nat :=
  let adj := wrapI16 (v + 128)
  if adj < 0 then u16ofI16 adj % 512 + 0xFE00 else u16ofI16 adj % 512

/-- `Sprite::to_bytes`. -/
def Sprite.to_bytes (s : Sprite) : SatBytes :=
  let y_raw := encodeSatPos s.y
  let hw := s.size.to_hardware_code
  let size_link := (s.link % 128) * 256 + (hw.1 % 4) * 4 + hw.2 % 4
  let x_raw := encodeSatPos s.x
  let attributes := s.tile_index % 2048 + (s.palette % 4) * 8192 +
    (if s.priority then 32768 else 0) +
    (if s.flip_horizontal then 2048 else 0) +
    (if s.flip_vertical then 4096 else 0)
  { b0 := y_raw / 256 % 256, b1 := y_raw % 256
    b2 := size_link / 256 % 256, b3 := size_link % 256
    b4 := x_raw / 256 % 256, b5 := x_raw % 256
    b6 := attributes / 256 % 256, b7 := attributes % 256 }

/-- Position decoding shared by Y and X in `Sprite::from_bytes`: sign-extend
the 9-bit value when bit 8 is set (`| 0xFE00`), reinterpret as `i16`, then
subtract the 128 offset with wrapping arithmetic. -/
def decodeSatPos (raw : Nat) : Int :=
  let v := if raw / 256 % 2 = 1 then i16ofU16 (raw % 512 + 0xFE00) else i16ofU16 raw
  wrapI16 (v - 128)

/-- `Sprite::from_bytes`. -/
def Sprite.from_bytes (b : SatBytes) (high_color_mode : Bool) : Sprite :=
  let y_raw := b.b0 * 256 + b.b1
  let size_link := b.b2 * 256 + b.b3
  let x_raw := b.b4 * 256 + b.b5
  let attributes := b.b6 * 256 + b.b7
  let y := decodeSatPos y_raw
  let width_code := size_link / 4 % 4
  let height_code := size_link % 4
  let size := (SpriteSize.from_hardware_code width_code height_code).getD .Size1x1
  let link := size_link / 256 % 128
  let x := decodeSatPos x_raw
  let tile_index := attributes % 2048
  let palette := attributes / 8192 % 4
  let priority := decide (attributes / 32768 % 2 = 1)
  let flip_horizontal := decide (attributes / 2048 % 2 = 1)
  let flip_vertical := decide (attributes / 4096 % 2 = 1)
  let valid := (!(decide (y < -128) || decide (y ≥ 224 + 128))) || decide (link ≠ 0)
  { y := y, x := x, size := size, link := link, tile_index := tile_index
    palette := palette, priority := priority
    flip_horizontal := flip_horizontal, flip_vertical := flip_vertical
    valid := valid, visible := true, high_color_mode := high_color_mode }

/-- `Sprite::height_pixels`. -/
def Sprite.height_pixels (s : Sprite) : Nat :=
  s.size.pixel_dimensions.2

/-- `Sprite::width_pixels`. -/
def Sprite.width_pixels (s : Sprite) : Nat :=
  s.size.pixel_dimensions.1

/-- `Sprite::is_on_line`: invalid or hidden sprites are never on a line;
otherwise the line must fall in `[y, y + height_pixels)`. -/
def Sprite.is_on_line (s : Sprite) (line : Int) : Bool :=
  if !s.valid || !s.visible then false
  else decide (s.y ≤ line) && decide (line < s.y + (s.height_pixels : Int))

/-- Per-line sprite count of `SpriteTable::calculate_active_sprites`. -/
def spriteCountOnLine (sprites : List Sprite) (line : Int) : Nat :=
  sprites.foldl (fun cnt s => if s.is_on_line line then cnt + 1 else cnt) 0

/-- `SpriteTable::calculate_active_sprites`: returns the 512-entry
`active_sprites_per_line` array (counts clamped to 20, zero beyond the screen)
and `overflow_line`, the first scanned line whose count exceeds 20. -/
def SpriteTable.calculate_active_sprites (sprites : List Sprite)
    (screen_height : Nat) : List Nat × Option Nat :=
  ((List.range 512).map fun line =>
      if line < screen_height then min (spriteCountOnLine sprites line) 20 else 0,
   (List.range screen_height).find? fun line =>
      decide (20 < spriteCountOnLine sprites line))

/-- 25 identical 8x8 sprites whose top edge is scanline 50 (P5 scenario). -/
def sprite50 : Sprite :=
  Sprite.with_params 0 50 .Size1x1 0 0 false false false false

/-- C8: a valid, visible sprite is on a line exactly when the line lies in
`[Y, Y + height_pixels)`; with 25 sprites all covering scanline 50,
`calculate_active_sprites` reports `active_sprites_per_line[50] = 20` and
`overflow_line = Some(50)`. -/
theorem sprite_overflow_line :
    (∀ (s : Sprite) (line : Int), s.valid = true → s.visible = true →
      (s.is_on_line line = true ↔
        s.y ≤ line ∧ line < s.y + (s.height_pixels : Int))) ∧
    (SpriteTable.calculate_active_sprites (List.replicate 25 sprite50) 224).2 =
      some 50 ∧
    (SpriteTable.calculate_active_sprites
      (List.replicate 25 sprite50) 224).1.getD 50 0 = 20 := by
  refine ⟨?_, by decide, by decide⟩
  intro s line hv hvis
  simp [Sprite.is_on_line, hv, hvis]

/-- Witness for the C8 theorem: the interval characterisation applied to the
concrete scenario sprite at scanline 50. -/
theorem sprite_overflow_line_witness :
    sprite50.is_on_line 50 = true ∧ sprite50.is_on_line 58 = false := by
  constructor
  · exact (sprite_overflow_line.1 sprite50 50 (by decide) (by decide)).mpr
      (by decide)
  · by_contra h
    rw [Bool.not_eq_false] at h
    have h2 := (sprite_overflow_line.1 sprite50 58 (by decide) (by decide)).mp h
    revert h2
    decide

theorem hw_code_roundtrip (sz : SpriteSize) :
    SpriteSize.from_hardware_code sz.to_hardware_code.1 sz.to_hardware_code.2 =
      some sz := by
  cases sz <;> rfl

theorem hw_code_lt (sz : SpriteSize) :
    sz.to_hardware_code.1 < 4 ∧ sz.to_hardware_code.2 < 4 := by
  cases sz <;> exact ⟨by decide, by decide⟩

/-- C9: encoding a sprite with `to_bytes` and decoding with `from_bytes`
reproduces position, size, tile index, palette, priority and flip fields, for
the boundary positions Y = -128 / Y = 127, X = 0, every flip/priority
combination, any size, and any in-range tile index and palette. -/
theorem sprite_bytes_roundtrip :
    ∀ (sz : SpriteSize) (tile pal link : Nat) (prio fh fv hcm : Bool) (y x : Int),
      (y = -128 ∨ y = 127) → x = 0 → tile < 2048 → pal < 4 →
      (Sprite.from_bytes (Sprite.to_bytes
          ⟨y, x, sz, link, tile, pal, prio, fh, fv, true, true, hcm⟩) hcm).y = y ∧
      (Sprite.from_bytes (Sprite.to_bytes
          ⟨y, x, sz, link, tile, pal, prio, fh, fv, true, true, hcm⟩) hcm).x = x ∧
      (Sprite.from_bytes (Sprite.to_bytes
          ⟨y, x, sz, link, tile, pal, prio, fh, fv, true, true, hcm⟩) hcm).size = sz ∧
      (Sprite.from_bytes (Sprite.to_bytes
          ⟨y, x, sz, link, tile, pal, prio, fh, fv, true, true,
            hcm⟩) hcm).tile_index = tile ∧
      (Sprite.from_bytes (Sprite.to_bytes
          ⟨y, x, sz, link, tile, pal, prio, fh, fv, true, true,
            hcm⟩) hcm).palette = pal ∧
      (Sprite.from_bytes (Sprite.to_bytes
          ⟨y, x, sz, link, tile, pal, prio, fh, fv, true, true,
            hcm⟩) hcm).priority = prio ∧
      (Sprite.from_bytes (Sprite.to_bytes
          ⟨y, x, sz, link, tile, pal, prio, fh, fv, true, true,
            hcm⟩) hcm).flip_horizontal = fh ∧
      (Sprite.from_bytes (Sprite.to_bytes
          ⟨y, x, sz, link, tile, pal, prio, fh, fv, true, true,
            hcm⟩) hcm).flip_vertical = fv := by
  intro sz tile pal link prio fh fv hcm y x hy hx htile hpal
  subst hx
  have hsize : (Sprite.from_bytes (Sprite.to_bytes
      ⟨y, 0, sz, link, tile, pal, prio, fh, fv, true, true, hcm⟩) hcm).size = sz := by
    rcases e : sz.to_hardware_code with ⟨w, h⟩
    have hw4 : w < 4 := by
      have h2 := hw_code_lt sz
      rw [e] at h2
      exact h2.1
    have hh4 : h < 4 := by
      have h2 := hw_code_lt sz
      rw [e] at h2
      exact h2.2
    simp only [Sprite.from_bytes, Sprite.to_bytes, e]
    set sl := (link % 128) * 256 + w % 4 * 4 + h % 4 with hsl
    have hd : sl / 256 % 256 * 256 + sl % 256 = sl := by omega
    rw [hd]
    have e1 : sl / 4 % 4 = w := by omega
    have e2 : sl % 4 = h := by omega
    rw [e1, e2]
    have hrt := hw_code_roundtrip sz
    rw [e] at hrt
    simp only [] at hrt
    rw [hrt]
    rfl
  refine ⟨?_, ?_, hsize, ?_, ?_, ?_, ?_, ?_⟩ <;>
    simp only [Sprite.from_bytes, Sprite.to_bytes]
  · rcases hy with rfl | rfl <;> decide
  · decide
  · cases prio <;> cases fh <;> cases fv <;>
      simp only [if_true, if_false, Bool.false_eq_true, ite_true, ite_false] <;> omega
  · cases prio <;> cases fh <;> cases fv <;>
      simp only [if_true, if_false, Bool.false_eq_true, ite_true, ite_false] <;> omega
  · cases prio <;> cases fh <;> cases fv <;>
      simp only [if_true, if_false, Bool.false_eq_true, ite_true, ite_false,
        decide_eq_true_eq, decide_eq_false_iff_not] <;> omega
  · cases prio <;> cases fh <;> cases fv <;>
      simp only [if_true, if_false, Bool.false_eq_true, ite_true, ite_false,
        decide_eq_true_eq, decide_eq_false_iff_not] <;> omega
  · cases prio <;> cases fh <;> cases fv <;>
      simp only [if_true, if_false, Bool.false_eq_true, ite_true, ite_false,
        decide_eq_true_eq, decide_eq_false_iff_not] <;> omega

/-- Witness for the C9 round-trip theorem at a concrete boundary sprite. -/
theorem sprite_bytes_roundtrip_witness :
    (Sprite.from_bytes (Sprite.to_bytes
        ⟨-128, 0, .Size2x3, 0, 100, 1, true, false, true, true, true,
          false⟩) false).y = -128 ∧
    (Sprite.from_bytes (Sprite.to_bytes
        ⟨-128, 0, .Size2x3, 0, 100, 1, true, false, true, true, true,
          false⟩) false).size = .Size2x3 ∧
    (Sprite.from_bytes (Sprite.to_bytes
        ⟨-128, 0, .Size2x3, 0, 100, 1, true, false, true, true, true,
          false⟩) false).priority = true := by
  have h := sprite_bytes_roundtrip .Size2x3 100 1 0 true false true false (-128) 0
    (Or.inl rfl) rfl (by decide) (by decide)
  exact ⟨h.1, h.2.2.1, h.2.2.2.2.2.1⟩

/-! ## Register and port state machine (`src/vdp/registers.rs`)

The state relevant to the data-port FIFO protocol: data buffer, the FIFO
(capacity 4), the FIFO/DMA status flags, and the DMA bookkeeping that
`write_data_port` can touch when DMA is active. -/

inductive DmaModeR where
  | Desativado
  | MemoriaParaVdp
  | PreenchimentoVram
  | CopiaVram
  deriving DecidableEq, Repr

structure VdpRegistersSt where
  data_buffer : Nat
  fifo : List Nat
  fifo_capacity : Nat
  status_fifo_full : Bool
  status_fifo_empty : Bool
  status_dma_active : Bool
  dma_active : Bool
  dma_mode : DmaModeR
  dma_length : Nat
  dma_source : Nat
  deriving DecidableEq, Repr

def VdpRegistersSt.new : VdpRegistersSt where
  data_buffer := 0
  fifo := []
  fifo_capacity := 4
  status_fifo_full := false
  status_fifo_empty := false
  status_dma_active := false
  dma_active := false
  dma_mode := DmaModeR.Desativado
  dma_length := 0
  dma_source := 0

/-- `VdpRegisters::update_fifo_status`. -/
def VdpRegistersSt.update_fifo_status (s : VdpRegistersSt) : VdpRegistersSt :=
  if s.fifo.isEmpty then
    { s with status_fifo_empty := true, status_fifo_full := false }
  else if s.fifo_capacity ≤ s.fifo.length then
    { s with status_fifo_full := true, status_fifo_empty := false }
  else
    { s with status_fifo_empty := false, status_fifo_full := false }

/-- Final completion check shared by the `process_dma_write` arms. -/
def VdpRegistersSt.dmaWriteFinish (s : VdpRegistersSt) : VdpRegistersSt :=
  if s.dma_length = 0 then
    { s with dma_active := false, status_dma_active := false,
             dma_mode := DmaModeR.Desativado }
  else s

/-- `VdpRegisters::process_dma_write` (the `u16`/`u32` counters wrap). -/
def VdpRegistersSt.process_dma_write (s : VdpRegistersSt) (value : Nat) :
    VdpRegistersSt :=
  match s.dma_mode with
  | DmaModeR.Desativado => s
  | DmaModeR.MemoriaParaVdp =>
    VdpRegistersSt.dmaWriteFinish
      { s with data_buffer := value,
               dma_length := (s.dma_length + 65535) % 65536,
               dma_source := (s.dma_source + 2) % 4294967296 }
  | DmaModeR.PreenchimentoVram =>
    VdpRegistersSt.dmaWriteFinish
      { s with data_buffer := value,
               dma_length := (s.dma_length + 65535) % 65536 }
  | DmaModeR.CopiaVram =>
    VdpRegistersSt.dmaWriteFinish
      { s with data_buffer := value,
               dma_length := (s.dma_length + 65535) % 65536 }

/-- `VdpRegisters::write_data_port`. -/
def VdpRegistersSt.write_data_port (s : VdpRegistersSt) (value : Nat) :
    VdpRegistersSt :=
  let s := { s with data_buffer := value }
  if s.dma_active then
    VdpRegistersSt.process_dma_write s value
  else
    let s :=
      if s.fifo.length < s.fifo_capacity then { s with fifo := s.fifo ++ [value] }
      else { s with status_fifo_full := true }
    VdpRegistersSt.update_fifo_status s

/-- `VdpRegisters::pop_fifo`: `Vec::pop` removes the LAST (most recently
pushed) element. -/
def VdpRegistersSt.pop_fifo (s : VdpRegistersSt) :
    Option Nat × VdpRegistersSt :=
  (s.fifo.getLast?,
   VdpRegistersSt.update_fifo_status { s with fifo := s.fifo.dropLast })

/-- `VdpRegisters::has_fifo_commands`. -/
def VdpRegistersSt.has_fifo_commands (s : VdpRegistersSt) : Bool :=
  !s.fifo.isEmpty

/-- A sequence of data-port writes. -/
def applyDataPortWrites (s : VdpRegistersSt) (ws : List Nat) : VdpRegistersSt :=
  ws.foldl VdpRegistersSt.write_data_port s

theorem update_fifo_status_fifo (s : VdpRegistersSt) :
    (s.update_fifo_status).fifo = s.fifo := by
  unfold VdpRegistersSt.update_fifo_status
  split
  · rfl
  · split
    · rfl
    · rfl

theorem update_fifo_status_cap (s : VdpRegistersSt) :
    (s.update_fifo_status).fifo_capacity = s.fifo_capacity := by
  unfold VdpRegistersSt.update_fifo_status
  split
  · rfl
  · split
    · rfl
    · rfl

theorem process_dma_write_fifo (s : VdpRegistersSt) (v : Nat) :
    (s.process_dma_write v).fifo = s.fifo := by
  unfold VdpRegistersSt.process_dma_write VdpRegistersSt.dmaWriteFinish
  cases h : s.dma_mode <;> simp <;> split <;> simp

theorem process_dma_write_cap (s : VdpRegistersSt) (v : Nat) :
    (s.process_dma_write v).fifo_capacity = s.fifo_capacity := by
  unfold VdpRegistersSt.process_dma_write VdpRegistersSt.dmaWriteFinish
  cases h : s.dma_mode <;> simp <;> split <;> simp

theorem write_data_port_fifo_len (s : VdpRegistersSt) (v : Nat)
    (hcap : s.fifo_capacity = 4) (hlen : s.fifo.length ≤ 4) :
    (s.write_data_port v).fifo.length ≤ 4 ∧
    (s.write_data_port v).fifo_capacity = 4 := by
  unfold VdpRegistersSt.write_data_port
  by_cases hd : s.dma_active
  · simp only [hd, if_true, process_dma_write_fifo, process_dma_write_cap]
    exact ⟨hlen, hcap⟩
  · simp only [hd, if_false, Bool.false_eq_true]
    by_cases hf : s.fifo.length < s.fifo_capacity
    · simp only [hf, if_true, update_fifo_status_fifo, update_fifo_status_cap]
      refine ⟨?_, hcap⟩
      simp only [List.length_append, List.length_cons, List.length_nil]
      omega
    · simp only [hf, if_false, update_fifo_status_fifo, update_fifo_status_cap]
      exact ⟨hlen, hcap⟩

/-- C7: for any sequence of data-port writes from a state whose FIFO respects
the capacity-4 bound, the FIFO length never exceeds 4; from reset, a 5th write
without a drain sets FIFO_FULL and leaves the 4 queued entries unchanged. -/
theorem fifo_bound :
    (∀ (s : VdpRegistersSt) (ws : List Nat), s.fifo_capacity = 4 →
      s.fifo.length ≤ 4 → (applyDataPortWrites s ws).fifo.length ≤ 4) ∧
    (applyDataPortWrites VdpRegistersSt.new [1, 2, 3, 4]).fifo = [1, 2, 3, 4] ∧
    (applyDataPortWrites VdpRegistersSt.new [1, 2, 3, 4, 5]).fifo =
      [1, 2, 3, 4] ∧
    (applyDataPortWrites VdpRegistersSt.new [1, 2, 3, 4, 5]).status_fifo_full =
      true := by
  refine ⟨?_, by decide, by decide, by decide⟩
  intro s ws
  induction ws generalizing s with
  | nil => exact fun _ h => h
  | cons w rest ih =>
    intro hcap hlen
    have h := write_data_port_fifo_len s w hcap hlen
    exact ih (s.write_data_port w) h.2 h.1

/-- Witness for the C7 theorem: the bound applied to a concrete 6-write
sequence from reset. -/
theorem fifo_bound_witness :
    (applyDataPortWrites VdpRegistersSt.new [9, 8, 7, 6, 5, 4]).fifo.length ≤ 4 :=
  fifo_bound.1 VdpRegistersSt.new [9, 8, 7, 6, 5, 4] (by decide) (by decide)

/-- C3 failing input: after enqueuing 0x1111 then 0x2222 (DMA inactive, no
drain), the FIFO front (oldest) entry is 0x1111, but `pop_fifo` — the drain
step used by `Vdp::process_pending_write` — removes and returns the NEWEST
entry 0x2222 (`Vec::pop` takes the back of the vector). -/
theorem data_port_drain_removes_newest :
    ((VdpRegistersSt.new.write_data_port 0x1111).write_data_port 0x2222).fifo =
      [0x1111, 0x2222] ∧
    ((VdpRegistersSt.new.write_data_port 0x1111).write_data_port
        0x2222).pop_fifo.1 = some 0x2222 ∧
    (0x2222 : Nat) ≠ 0x1111 := by
  decide

/-! ## VRAM (`src/vdp/vram.rs`) and the DMA engine (`src/vdp/dma.rs`) -/

structure Vram where
  size : Nat
  data : Nat → Nat

def Vram.new : Vram :=
  ⟨65536, fun _ => 0⟩

/-- `Vram::write8` (stores a `u8`; out-of-range addresses ignored). -/
def Vram.write8 (v : Vram) (addr value : Nat) : Vram :=
  if addr < v.size then { v with data := Function.update v.data addr (value % 256) }
  else v

/-- `Vram::read8`. -/
def Vram.read8 (v : Vram) (addr : Nat) : Nat :=
  if addr < v.size then v.data addr else 0

/-- `Vram::write16`, little-endian. -/
def Vram.write16 (v : Vram) (addr value : Nat) : Vram :=
  (v.write8 addr (value % 256)).write8 (addr + 1) (value / 256 % 256)

/-- `Vram::read16`, little-endian. -/
def Vram.read16 (v : Vram) (addr : Nat) : Nat :=
  v.read8 (addr + 1) % 256 * 256 + v.read8 addr

inductive DmaModeD where
  | MemoryToVdp
  | VramFill
  | VramCopy
  | Inactive
  deriving DecidableEq, Repr

structure VdpDma where
  mode : DmaModeD
  source_addr : Nat
  dest_addr : Nat
  length : Nat
  words_remaining : Nat
  active : Bool
  fill_data : Nat
  copy_source : Nat
  cycles_until_transfer : Nat
  words_per_cycle : Nat
  deriving Repr

def VdpDma.new : VdpDma where
  mode := DmaModeD.Inactive
  source_addr := 0
  dest_addr := 0
  length := 0
  words_remaining := 0
  active := false
  fill_data := 0
  copy_source := 0
  cycles_until_transfer := 0
  words_per_cycle := 1

/-- Result of one DMA step: completion flag plus the updated state. -/
abbrev DmaStep := Bool × VdpDma × Vram × Cram × Vsram

/-- The common tail of `VdpDma::execute_transfer`: advance the destination
address, decrement the word counter (saturating), and deactivate on zero. -/
def dmaFinishTransfer (d : VdpDma) (v : Vram) (c : Cram) (vs : Vsram) : DmaStep :=
  let d := { d with dest_addr := (d.dest_addr + 2) % 4294967296,
                    words_remaining := d.words_remaining - 1 }
  if d.words_remaining = 0 then
    (true, { d with active := false, mode := DmaModeD.Inactive }, v, c, vs)
  else
    (false, d, v, c, vs)

/-- `VdpDma::execute_transfer`; the external bus is a read function from
addresses to `u16` words. -/
def VdpDma.execute_transfer (d : VdpDma) (bus : Nat → Nat) (vram : Vram)
    (cram : Cram) (vsram : Vsram) : DmaStep :=
  let dest_type := d.dest_addr / 16384 % 4
  let dest_addr_word := d.dest_addr % 16384 / 2
  match d.mode with
  | DmaModeD.MemoryToVdp =>
    let data := bus d.source_addr
    let mems : Vram × Cram × Vsram :=
      if dest_type = 0 then (vram.write16 d.dest_addr data, cram, vsram)
      else if dest_type = 1 then
        (vram,
         if dest_addr_word < 64 then cram.write dest_addr_word (data &&& 0x0EEE)
         else cram,
         vsram)
      else if dest_type = 2 then
        (vram, cram,
         if dest_addr_word < 40 then vsram.write16 d.dest_addr data else vsram)
      else (vram.write16 d.dest_addr data, cram, vsram)
    dmaFinishTransfer { d with source_addr := (d.source_addr + 2) % 4294967296 }
      mems.1 mems.2.1 mems.2.2
  | DmaModeD.VramFill =>
    let vram := if dest_type = 0 then vram.write16 d.dest_addr d.fill_data else vram
    dmaFinishTransfer d vram cram vsram
  | DmaModeD.VramCopy =>
    let data := vram.read16 d.copy_source
    dmaFinishTransfer { d with copy_source := (d.copy_source + 2) % 4294967296 }
      (vram.write16 d.dest_addr data) cram vsram
  | DmaModeD.Inactive =>
    (true, d, vram, cram, vsram)

/-- `VdpDma::tick`. -/
def VdpDma.tick (d : VdpDma) (bus : Nat → Nat) (vram : Vram) (cram : Cram)
    (vsram : Vsram) : DmaStep :=
  if ¬ d.active ∨ d.words_remaining = 0 then
    (true, { d with active := false, mode := DmaModeD.Inactive }, vram, cram, vsram)
  else if 0 < d.cycles_until_transfer then
    (false, { d with cycles_until_transfer := d.cycles_until_transfer - 1 },
     vram, cram, vsram)
  else
    let r := d.execute_transfer bus vram cram vsram
    (r.1, { r.2.1 with cycles_until_transfer := r.2.1.words_per_cycle - 1 },
     r.2.2.1, r.2.2.2.1, r.2.2.2.2)

/-- `VdpDma::abort`. -/
def VdpDma.abort (d : VdpDma) : VdpDma :=
  { d with active := false, mode := DmaModeD.Inactive, words_remaining := 0 }

theorem dmaFinishTransfer_words (d : VdpDma) (v : Vram) (c : Cram) (vs : Vsram) :
    (dmaFinishTransfer d v c vs).2.1.words_remaining = d.words_remaining - 1 := by
  unfold dmaFinishTransfer
  dsimp only
  split <;> rfl

theorem execute_transfer_words (d : VdpDma) (bus : Nat → Nat) (v : Vram)
    (c : Cram) (vs : Vsram) (hm : d.mode ≠ DmaModeD.Inactive) :
    (d.execute_transfer bus v c vs).2.1.words_remaining =
      d.words_remaining - 1 := by
  cases h : d.mode <;>
    simp [VdpDma.execute_transfer, h, dmaFinishTransfer_words] at hm ⊢

/-- The DMA state produced by starting a MemoryToVDP transfer of length 5
(`setup_from_registers` sets `words_remaining := length`,
`cycles_until_transfer := 0` and `words_per_cycle := 1`). -/
def dmaStart5 : VdpDma :=
  { mode := DmaModeD.MemoryToVdp, source_addr := 0x1000, dest_addr := 0,
    length := 5, words_remaining := 5, active := true, fill_data := 0,
    copy_source := 0, cycles_until_transfer := 0, words_per_cycle := 1 }

/-- Iterated `VdpDma::tick` from `dmaStart5` against a constant bus. -/
def dmaRun : Nat → VdpDma × Vram × Cram × Vsram
  | 0 => (dmaStart5, Vram.new, Cram.new, Vsram.new)
  | n + 1 =>
    let p := dmaRun n
    let r := p.1.tick (fun _ => 0x1234) p.2.1 p.2.2.1 p.2.2.2
    (r.2.1, r.2.2.1, r.2.2.2.1, r.2.2.2.2)

/-- C6: each tick of an active DMA (pending transfer, non-idle mode) transfers
exactly one word and decrements `words_remaining` by exactly one; the counter
never increases under `tick`; starting MemoryToVDP with length 5 and ticking 5
times deactivates DMA (mode `Inactive`, `active = false`) with
`words_remaining = 0`, and `k ≤ 5` ticks leave exactly `5 - k` words. -/
theorem dma_word_count :
    (∀ (d : VdpDma) (bus : Nat → Nat) (v : Vram) (c : Cram) (vs : Vsram),
      d.active = true → 0 < d.words_remaining → d.cycles_until_transfer = 0 →
      d.mode ≠ DmaModeD.Inactive →
      (d.tick bus v c vs).2.1.words_remaining = d.words_remaining - 1) ∧
    (∀ (d : VdpDma) (bus : Nat → Nat) (v : Vram) (c : Cram) (vs : Vsram),
      (d.tick bus v c vs).2.1.words_remaining ≤ d.words_remaining) ∧
    (dmaRun 5).1.mode = DmaModeD.Inactive ∧
    (dmaRun 5).1.words_remaining = 0 ∧ (dmaRun 5).1.active = false ∧
    (∀ k, k ≤ 5 → (dmaRun k).1.words_remaining = 5 - k) := by
  refine ⟨?_, ?_, rfl, rfl, rfl, by decide⟩
  · intro d bus v c vs ha hw hc hm
    unfold VdpDma.tick
    have h1 : ¬(¬ d.active = true ∨ d.words_remaining = 0) := by
      simp [ha]
      omega
    rw [if_neg h1, hc]
    simp only [Nat.lt_irrefl, if_false]
    rw [execute_transfer_words d bus v c vs hm]
  · intro d bus v c vs
    unfold VdpDma.tick
    by_cases h1 : ¬ d.active = true ∨ d.words_remaining = 0
    · rw [if_pos h1]
    · rw [if_neg h1]
      by_cases h2 : 0 < d.cycles_until_transfer
      · rw [if_pos h2]
      · rw [if_neg h2]
        dsimp only
        by_cases hm : d.mode = DmaModeD.Inactive
        · simp [VdpDma.execute_transfer, hm]
        · rw [execute_transfer_words d bus v c vs hm]
          omega

/-- Witness for the C6 theorem: the one-word-per-tick law applied to the
concrete started DMA state. -/
theorem dma_word_count_witness :
    (dmaStart5.tick (fun _ => 0x1234) Vram.new Cram.new
      Vsram.new).2.1.words_remaining = 4 :=
  dma_word_count.1 dmaStart5 (fun _ => 0x1234) Vram.new Cram.new Vsram.new
    rfl (by decide) rfl (by decide)

/-! ## FrameBuffer (`src/vdp/framebuffer.rs`) and the compositor merge
(`src/vdp/renderer.rs`)

`FrameBuffer::new` fills with opaque black `0xFF000000`.  The renderer merges
each pass's temporary buffer into the main framebuffer per pixel with
`merge_framebuffers`. -/

structure FrameBuffer where
  width : Nat
  height : Nat
  pixels : List Nat
  deriving DecidableEq, Repr

def FrameBuffer.new (w h : Nat) : FrameBuffer :=
  ⟨w, h, List.replicate (w * h) 0xFF000000⟩

/-- `FrameBuffer::set_pixel` (bounds-checked; the returned success flag is
dropped). -/
def FrameBuffer.set_pixel (fb : FrameBuffer) (x y color : Nat) : FrameBuffer :=
  if x < fb.width ∧ y < fb.height then
    { fb with pixels := fb.pixels.set (y * fb.width + x) color }
  else fb

/-- `FrameBuffer::get_pixel`. -/
def FrameBuffer.get_pixel (fb : FrameBuffer) (x y : Nat) : Option Nat :=
  if x < fb.width ∧ y < fb.height then some (fb.pixels.getD (y * fb.width + x) 0)
  else none

/-- The per-pixel body of `VdpRenderer::merge_framebuffers`: the source pixel
replaces the destination when its alpha byte is non-zero and either its
priority nibble (bits 28-31) exceeds the destination's, or the destination
alpha byte is zero, or the priorities are equal and the source alpha is 0xFF. -/
def mergePixel (dst src : Nat) : Nat :=
  let alpha := src / 16777216 % 256
  if 0 < alpha then
    let src_priority := src / 268435456 % 16
    let dst_priority := dst / 268435456 % 16
    if dst_priority < src_priority ∨ dst / 16777216 % 256 = 0 then src
    else if src_priority = dst_priority ∧ alpha = 255 then src
    else dst
  else dst

/-- `VdpRenderer::merge_framebuffers`: the per-pixel merge applied over the
whole destination, reading the source through `get_pixel`. -/
def FrameBuffer.merge_framebuffers (fb : FrameBuffer) (other : FrameBuffer) :
    FrameBuffer :=
  { fb with
    pixels := (List.range (fb.height * fb.width)).map fun i =>
      match other.get_pixel (i % fb.width) (i / fb.width) with
      | none => fb.pixels.getD i 0
      | some src => mergePixel (fb.pixels.getD i 0) src }

/-- A 1x1 pass buffer carrying a low-priority plane-A pixel colour. -/
def bufPlaneA : FrameBuffer :=
  (FrameBuffer.new 1 1).set_pixel 0 0 0xFF0000E0

/-- A 1x1 pass buffer carrying a high-priority sprite pixel colour. -/
def bufSprite : FrameBuffer :=
  (FrameBuffer.new 1 1).set_pixel 0 0 0xFFE00000

/-- C1 counterexample: merging the plane pass then the sprite pass leaves the
sprite colour, but the reverse order leaves the plane colour — compositing is
NOT order-independent; and a non-transparent contribution with priority equal
to the destination's is NOT written unless fully opaque, violating the claimed
"opaque and priority >= destination" merge rule. -/
theorem compositing_order_counterexample :
    (((FrameBuffer.new 1 1).merge_framebuffers bufPlaneA).merge_framebuffers
        bufSprite).get_pixel 0 0 = some 0xFFE00000 ∧
    (((FrameBuffer.new 1 1).merge_framebuffers bufSprite).merge_framebuffers
        bufPlaneA).get_pixel 0 0 = some 0xFF0000E0 ∧
    (0xFF0000E0 : Nat) ≠ 0xFFE00000 ∧
    mergePixel 0xFF000000 0xF1000000 = 0xFF000000 ∧
    (0xF1000000 : Nat) / 16777216 % 256 ≠ 0 ∧
    (0xF1000000 : Nat) / 268435456 % 16 = (0xFF000000 : Nat) / 268435456 % 16 := by
  refine ⟨by decide, by decide, by decide, by decide, by decide, by decide⟩

/-- C1 (amended): the merge writes a contribution iff its alpha byte is
non-zero and (its priority nibble exceeds the destination's, or the
destination alpha is zero, or priorities are equal and the contribution is
fully opaque).  Fully opaque contributions carry priority nibble 15 and so
ALWAYS overwrite (last-writer-wins); transparent contributions never write.
In the renderer's fixed order — low-priority plane pass merged before the
high-priority sprite pass — the sprite colour is the final framebuffer value,
but merging is not order-independent. -/
theorem compositing_merge_law :
    (∀ (dst src : Nat), src / 16777216 % 256 = 255 → mergePixel dst src = src) ∧
    (∀ (dst src : Nat), src / 16777216 % 256 = 0 → mergePixel dst src = dst) ∧
    (((FrameBuffer.new 1 1).merge_framebuffers bufPlaneA).merge_framebuffers
        bufSprite).get_pixel 0 0 = some 0xFFE00000 := by
  refine ⟨?_, ?_, by decide⟩
  · intro dst src h
    unfold mergePixel
    simp only [h]
    rw [if_pos (by norm_num)]
    have h28 : src / 268435456 % 16 = 15 := by omega
    rw [h28]
    by_cases hd : dst / 268435456 % 16 < 15
    · rw [if_pos (Or.inl hd)]
    · have he : dst / 268435456 % 16 = 15 := by omega
      by_cases hz : dst / 16777216 % 256 = 0
      · rw [if_pos (Or.inr hz)]
      · rw [if_neg (by push_neg; exact ⟨by omega, hz⟩), if_pos ⟨he.symm, trivial⟩]
  · intro dst src h
    unfold mergePixel
    simp [h]

/-- Witness for the C1 merge-law theorem at concrete pixels. -/
theorem compositing_merge_law_witness :
    mergePixel 0xFF0000E0 0xFFE00000 = 0xFFE00000 ∧
    mergePixel 0xFF0000E0 0x00123456 = 0xFF0000E0 := by
  constructor
  · exact compositing_merge_law.1 0xFF0000E0 0xFFE00000 (by decide)
  · exact compositing_merge_law.2.1 0xFF0000E0 0x00123456 (by decide)
